import Mathlib

/-!
Shallow embedding of the refresh-cache and merge engine of
src/flask_app.py (a Flask app serving a live bus map from two GTFS-RT
feeds), together with the request-scoped cascading-filter and
movement-delta logic of the index route.

Embedding conventions:
* pandas DataFrames become lists of records; the left merge on a key
  column becomes an order-preserving flat-map pairing each left row with
  every matching right row (pandas semantics).  A pandas merge whose
  right frame is an empty DataFrame (hence has no columns) raises
  KeyError on the join column; this is modelled by PyError.keyError.
* protobuf bytes become the abstract type Bytes: empty (falsy in
  Python), decodable (ParseFromString succeeds, yielding a FeedMessage),
  or malformed (ParseFromString raises DecodeError).  fetch_gtfs_rt
  returning None (a caught requests.RequestException) is Option.none.
* float latitude/longitude become rationals; timestamps become integer
  epoch seconds (Brisbane-local rendering of vehicle timestamps by the
  external datetime library is kept abstract: the entity carries the
  already-formatted string when the field is present).
* code that can raise returns Except PyError.
-/

namespace FlaskApp

/-- REFRESH_INTERVAL_SECONDS = 60 (flask_app.py line 17). -/
def REFRESH_INTERVAL_SECONDS : Int := 60

/-- Row produced by parse_vehicle_positions (flask_app.py lines 45-52). -/
structure VehicleRecord where
  trip_id : String
  route_id : String
  vehicle_id : String
  lat : ℚ
  lon : ℚ
  stop_sequence : Nat
  stop_id : String
  current_status : Nat
  timestamp : String
deriving DecidableEq

/-- Row produced by parse_trip_updates (flask_app.py line 65). -/
structure TripUpdateRecord where
  trip_id : String
  delay : Int
  status : String
deriving DecidableEq

/-- GTFS-RT trip descriptor (the fields the app reads). -/
structure TripDescriptor where
  trip_id : String
  route_id : String
deriving DecidableEq

/-- GTFS-RT arrival event: only .delay is read (line 63). -/
structure StopTimeEvent where
  delay : Int
deriving DecidableEq

/-- GTFS-RT stop-time update: only .arrival.delay is read (line 63). -/
structure StopTimeUpdate where
  arrival : StopTimeEvent
deriving DecidableEq

/-- GTFS-RT vehicle-position entity payload, flattened to the fields the
app reads (lines 47-50).  vehicle_label is v.vehicle.label; timestamp is
the Brisbane-formatted string when HasField("timestamp") holds (the
formatting itself is done by the external datetime library). -/
structure VehiclePosition where
  trip : TripDescriptor
  vehicle_label : String
  lat : ℚ
  lon : ℚ
  current_stop_sequence : Nat
  stop_id : String
  current_status : Nat
  timestamp : Option String
deriving DecidableEq

/-- GTFS-RT trip-update entity payload (lines 61-63). -/
structure TripUpdateEntity where
  trip : TripDescriptor
  stop_time_update : List StopTimeUpdate
deriving DecidableEq

/-- One FeedMessage entity; HasField("vehicle") / HasField("trip_update")
become Option.isSome. -/
structure FeedEntity where
  vehicle : Option VehiclePosition
  trip_update : Option TripUpdateEntity
deriving DecidableEq

/-- Decoded gtfs_realtime_pb2.FeedMessage. -/
structure FeedMessage where
  entity : List FeedEntity
deriving DecidableEq

/-- Exceptions that can escape the data path: protobuf DecodeError from
ParseFromString, and pandas KeyError from merging on a column that the
(empty) right frame does not have. -/
inductive PyError where
  | decodeError
  | keyError
deriving DecidableEq

/-- Abstraction of the bytes returned by a feed endpoint: empty (falsy),
decodable to a FeedMessage, or malformed (ParseFromString raises). -/
inductive Bytes where
  | empty
  | decodable (feed : FeedMessage)
  | malformed
deriving DecidableEq

/-- Python truthiness of an Optional bytes value: None and b"" are falsy
(the test on flask_app.py line 80). -/
def bytesTruthy : Option Bytes → Bool
  | none => false
  | some .empty => false
  | some _ => true

/-- feed.ParseFromString(content): succeeds on empty or decodable bytes,
raises DecodeError on malformed bytes (lines 43-44 and 56-57). -/
def decodeFeed : Bytes → Except PyError FeedMessage
  | .empty => .ok ⟨[]⟩
  | .decodable feed => .ok feed
  | .malformed => .error .decodeError

/-- parse_vehicle_positions (lines 42-53): one VehicleRecord per entity
with a vehicle field, in feed order; timestamp defaults to "N/A" when the
field is absent. -/
def parse_vehicle_positions (feed : FeedMessage) : List VehicleRecord :=
  feed.entity.filterMap (fun e =>
    e.vehicle.map (fun v =>
      { trip_id := v.trip.trip_id
        route_id := v.trip.route_id
        vehicle_id := v.vehicle_label
        lat := v.lat
        lon := v.lon
        stop_sequence := v.current_stop_sequence
        stop_id := v.stop_id
        current_status := v.current_status
        timestamp := v.timestamp.getD "N/A" }))

/-- Status classification of flask_app.py line 64:
"Delayed" if delay > 300 else ("Early" if delay < -60 else "On Time"). -/
def statusOfDelay (delay : Int) : String :=
  if delay > 300 then "Delayed" else if delay < -60 then "Early" else "On Time"

/-- parse_trip_updates (lines 55-66): one TripUpdateRecord per entity
with a trip_update field whose stop_time_update list is non-empty; the
delay is the first stop-time update's arrival delay. -/
def parse_trip_updates (feed : FeedMessage) : List TripUpdateRecord :=
  feed.entity.filterMap (fun e =>
    match e.trip_update with
    | none => none
    | some tu =>
      match tu.stop_time_update with
      | [] => none
      | stu :: _ =>
        some { trip_id := tu.trip.trip_id
               delay := stu.arrival.delay
               status := statusOfDelay stu.arrival.delay })

/-- categorize_region (lines 95-99): latitude-only bucketing, first
matching range wins. -/
def categorize_region (lat : ℚ) : String :=
  if -27.75 ≤ lat ∧ lat ≤ -27.0 then "Brisbane"
  else if -28.2 ≤ lat ∧ lat ≤ -27.78 then "Gold Coast"
  else if -26.9 ≤ lat ∧ lat ≤ -26.3 then "Sunshine Coast"
  else "Other"

/-- route_id.str.split('-').str[0] (line 93): the part of route_id before
the first '-' (the whole string when there is no '-'). -/
def routeNameOf (route_id : String) : String :=
  String.mk (route_id.toList.takeWhile (fun ch => ch != '-'))

/-- One row of the merged live_data frame (lines 90-100); the vehicle
columns are kept together as the original VehicleRecord. -/
structure MergedRecord where
  vehicle : VehicleRecord
  delay : Int
  status : String
  route_name : String
  region : String
deriving DecidableEq

/-- Row expansion of the pandas left merge on trip_id (line 90) together
with the fillna defaults (lines 91-92) and the derived route_name and
region columns (lines 93-100): each vehicle row is paired with every
trip-update row sharing its trip_id, in order; a vehicle with no match
keeps one row with the fillna defaults delay 0 and status "On Time".
matchedPairs gives the (delay, status) pairs one vehicle row is joined
with. -/
def matchedPairs (updates : List TripUpdateRecord) (tid : String) : List (Int × String) :=
  match updates.filter (fun u => u.trip_id == tid) with
  | [] => [(0, "On Time")]
  | ms => ms.map (fun u => (u.delay, u.status))

/-- The merged live_data rows (lines 90-100): flat-map of matchedPairs
over the vehicle rows, in order, with the derived columns. -/
def leftJoinRows (vehicles : List VehicleRecord) (updates : List TripUpdateRecord) :
    List MergedRecord :=
  vehicles.flatMap (fun v =>
    (matchedPairs updates v.trip_id).map (fun du =>
      { vehicle := v
        delay := du.1
        status := du.2
        route_name := routeNameOf v.route_id
        region := categorize_region v.lat }))

/-- Lines 90-100 as executed: when updates is empty, pd.DataFrame([]) has
no columns, so merging on "trip_id" raises KeyError; otherwise the merge
produces leftJoinRows. -/
def mergeLiveData (vehicles : List VehicleRecord) (updates : List TripUpdateRecord) :
    Except PyError (List MergedRecord) :=
  if updates.isEmpty then .error .keyError
  else .ok (leftJoinRows vehicles updates)

/-- The process-wide CACHE dict (lines 25-29). -/
structure Cache where
  data : List MergedRecord
  last_refreshed : Option Int
  previous_data : List MergedRecord
deriving DecidableEq

/-- The cache-validity test of line 73: CACHE["last_refreshed"] is truthy
(a datetime is always truthy, None is falsy) and the elapsed time is
strictly below the refresh interval. -/
def cacheIsFresh (c : Cache) (now : Int) : Bool :=
  match c.last_refreshed with
  | some t => decide (now - t < REFRESH_INTERVAL_SECONDS)
  | none => false

/-- get_live_bus_data (lines 68-107).  The two fetch results are inputs
(none models a caught requests.RequestException).  Returns the rendered
pair (data, timestamp) together with the cache after the call; raising is
modelled by Except.error.  CACHE.get("last_refreshed") or now becomes
Option.getD now (on line 74 last_refreshed is known to be some t). -/
def get_live_bus_data (c : Cache) (now : Int)
    (vehicle_content trip_content : Option Bytes) :
    Except PyError (List MergedRecord × Int × Cache) :=
  if cacheIsFresh c now then
    .ok (c.data, c.last_refreshed.getD now, c)
  else if !(bytesTruthy vehicle_content) || !(bytesTruthy trip_content) then
    .ok (c.data, c.last_refreshed.getD now, c)
  else
    match vehicle_content, trip_content with
    | some vb, some tb =>
      match decodeFeed vb with
      | .error e => .error e
      | .ok vfeed =>
        match decodeFeed tb with
        | .error e => .error e
        | .ok tfeed =>
          let vehicles_df := parse_vehicle_positions vfeed
          let updates_df := parse_trip_updates tfeed
          if vehicles_df.isEmpty then
            .ok (c.data, c.last_refreshed.getD now, c)
          else
            match mergeLiveData vehicles_df updates_df with
            | .error e => .error e
            | .ok live_data =>
              .ok (live_data, now,
                   { data := live_data
                     last_refreshed := some now
                     previous_data := c.data })
    | _, _ => .ok (c.data, c.last_refreshed.getD now, c)

/-- Bool test for an Except value being an error (a raised exception). -/
def isErr {α : Type} : Except PyError α → Bool
  | .error _ => true
  | .ok _ => false

/-- pandas Series.unique(): distinct values in order of first
appearance. -/
def uniqueList : List String → List String
  | [] => []
  | a :: t => a :: uniqueList (t.filter (fun b => b != a))
termination_by l => l.length
decreasing_by
  simp only [List.length_cons]
  exact Nat.lt_succ_of_le (List.length_filter_le _ t)

/-- sorted(df[col].unique().tolist()): distinct values in ascending
order. -/
def sortedUnique (l : List String) : List String :=
  List.insertionSort (fun a b => a ≤ b) (uniqueList l)

/-- region_options (line 128): "All" then the sorted distinct regions of
the full snapshot. -/
def region_options (master : List MergedRecord) : List String :=
  "All" :: sortedUnique (master.map (fun r => r.region))

/-- df_for_route_options (line 130): snapshot restricted to the selected
region, unless it is "All". -/
def df_for_route_options (master : List MergedRecord) (selected_region : String) :
    List MergedRecord :=
  if selected_region != "All" then master.filter (fun r => r.region == selected_region)
  else master

/-- route_options (line 131). -/
def route_options (master : List MergedRecord) (selected_region : String) : List String :=
  "All" :: sortedUnique ((df_for_route_options master selected_region).map
    (fun r => r.route_name))

/-- df_for_status_options (line 133): further restricted to the selected
route, unless it is "All". -/
def df_for_status_options (master : List MergedRecord)
    (selected_region selected_route : String) : List MergedRecord :=
  let d := df_for_route_options master selected_region
  if selected_route != "All" then d.filter (fun r => r.route_name == selected_route)
  else d

/-- status_options (line 134): sorted distinct statuses of the
route-restricted data, with no "All" sentinel prepended. -/
def status_options (master : List MergedRecord)
    (selected_region selected_route : String) : List String :=
  sortedUnique ((df_for_status_options master selected_region selected_route).map
    (fun r => r.status))

/-- Lines 137-138: an empty status selection defaults to all available
statuses for the selected route. -/
def resolveSelectedStatus (master : List MergedRecord)
    (selected_region selected_route : String) (selected_status : List String) :
    List String :=
  if selected_status.isEmpty then status_options master selected_region selected_route
  else selected_status

/-- df_for_vehicle_options (line 140): rows whose status is in the
resolved status selection. -/
def df_for_vehicle_options (master : List MergedRecord)
    (selected_region selected_route : String) (selected_status : List String) :
    List MergedRecord :=
  (df_for_status_options master selected_region selected_route).filter
    (fun r => (resolveSelectedStatus master selected_region selected_route
        selected_status).contains r.status)

/-- vehicle_options (line 141). -/
def vehicle_options (master : List MergedRecord)
    (selected_region selected_route : String) (selected_status : List String) :
    List String :=
  "All" :: sortedUnique ((df_for_vehicle_options master selected_region selected_route
    selected_status).map (fun r => r.vehicle.vehicle_id))

/-- filtered_df after the final vehicle filter (lines 144-146). -/
def filtered_view (master : List MergedRecord)
    (selected_region selected_route : String) (selected_status : List String)
    (selected_vehicle : String) : List MergedRecord :=
  let d := df_for_vehicle_options master selected_region selected_route selected_status
  if selected_vehicle != "All" then d.filter (fun r => r.vehicle.vehicle_id == selected_vehicle)
  else d

/-- One row of filtered_df after the previous-location merge (lines
148-155): the current record plus the optional (lat_prev, lon_prev) pair;
none models pd.NA. -/
structure RenderRow where
  cur : MergedRecord
  prev : Option (ℚ × ℚ)
deriving DecidableEq

/-- Rows generated for one record by the left merge with
previous_df[['vehicle_id','lat','lon']] on vehicle_id (line 152): one row
per previous record with the same vehicle_id, or a single row with NA
previous coordinates when there is none. -/
def rowsForRecord (r : MergedRecord) (previous : List MergedRecord) : List RenderRow :=
  match previous.filter (fun p => p.vehicle.vehicle_id == r.vehicle.vehicle_id) with
  | [] => [⟨r, none⟩]
  | ps => ps.map (fun p => ⟨r, some (p.vehicle.lat, p.vehicle.lon)⟩)

/-- Lines 149-155: when the previous snapshot is empty every row gets NA
previous coordinates, otherwise the left merge on vehicle_id. -/
def mergePrevious (filtered previous : List MergedRecord) : List RenderRow :=
  if previous.isEmpty then filtered.map (fun r => ⟨r, none⟩)
  else filtered.flatMap (fun r => rowsForRecord r previous)

/-- The AntPath emission test of line 162: a segment from the previous to
the current coordinate is drawn iff lat_prev is not NA and the position
changed. -/
def rowSegment (row : RenderRow) : Option ((ℚ × ℚ) × (ℚ × ℚ)) :=
  match row.prev with
  | none => none
  | some pl =>
    if row.cur.vehicle.lat ≠ pl.1 ∨ row.cur.vehicle.lon ≠ pl.2 then
      some (pl, (row.cur.vehicle.lat, row.cur.vehicle.lon))
    else none

/-- All path segments emitted for a list of rendered rows (lines
161-163). -/
def pathSegments (rows : List RenderRow) : List ((ℚ × ℚ) × (ℚ × ℚ)) :=
  rows.filterMap rowSegment

/-! ## Concrete sample data for witnesses and counterexamples -/

/-- A concrete vehicle record (as produced by parse_vehicle_positions). -/
def v1 : VehicleRecord :=
  ⟨"T1", "700-3136", "V100", -27, 153, 3, "S10", 1, "N/A"⟩

/-- A trip update matching v1's trip with a large delay. -/
def tu1 : TripUpdateRecord := ⟨"T1", 400, "Delayed"⟩

/-- A second trip update for the same trip as tu1. -/
def tu2 : TripUpdateRecord := ⟨"T1", 20, "On Time"⟩

/-- A trip update for a trip no vehicle is on. -/
def tuOther : TripUpdateRecord := ⟨"T9", -500, "Early"⟩

/-- A vehicle-position feed with a single vehicle entity. -/
def sampleFeedV : FeedMessage :=
  ⟨[⟨some ⟨⟨"T1", "700-3136"⟩, "V100", -27, 153, 3, "S10", 1, none⟩, none⟩]⟩

/-- A trip-update feed with a single trip-update entity for trip T1. -/
def sampleFeedT : FeedMessage :=
  ⟨[⟨none, some ⟨⟨"T1", ""⟩, [⟨⟨120⟩⟩]⟩⟩]⟩

/-- A current merged record for vehicle V1 at (-28, 154). -/
def r1 : MergedRecord :=
  ⟨⟨"T1", "700-1", "V1", -28, 154, 1, "S1", 0, "N/A"⟩, 0, "On Time", "700", "Gold Coast"⟩

/-- A previous-snapshot record for V1 with the same coordinates as r1. -/
def pSame : MergedRecord :=
  ⟨⟨"T0", "700-1", "V1", -28, 154, 2, "S0", 0, "N/A"⟩, 0, "On Time", "700", "Gold Coast"⟩

/-- A previous-snapshot record for V1 with a different longitude. -/
def pDiff : MergedRecord :=
  ⟨⟨"T0", "700-1", "V1", -28, 153, 2, "S0", 0, "N/A"⟩, 0, "On Time", "700", "Gold Coast"⟩

/-! ## Helper lemmas -/

theorem uniqueList_mem (l : List String) (x : String) : x ∈ uniqueList l ↔ x ∈ l := by
  induction l using uniqueList.induct with
  | case1 => simp [uniqueList]
  | case2 a t ih =>
    rw [uniqueList]
    by_cases hx : x = a
    · simp [hx]
    · simp only [List.mem_cons, hx, false_or, ih, List.mem_filter]
      simp [hx]

theorem uniqueList_nodup (l : List String) : (uniqueList l).Nodup := by
  induction l using uniqueList.induct with
  | case1 => simp [uniqueList]
  | case2 a t ih =>
    rw [uniqueList]
    refine List.nodup_cons.mpr ⟨fun hmem => ?_, ih⟩
    have := (uniqueList_mem _ a).mp hmem
    simp [List.mem_filter] at this

theorem sortedUnique_mem (l : List String) (x : String) : x ∈ sortedUnique l ↔ x ∈ l :=
  (List.perm_insertionSort _ (uniqueList l)).mem_iff.trans (uniqueList_mem l x)

theorem sortedUnique_nodup (l : List String) : (sortedUnique l).Nodup :=
  (List.perm_insertionSort _ (uniqueList l)).nodup_iff.mpr (uniqueList_nodup l)

theorem sortedUnique_sorted (l : List String) :
    (sortedUnique l).Sorted (fun a b => a ≤ b) :=
  List.sorted_insertionSort _ (uniqueList l)

/-- Under distinct keys, filtering a list of trip updates by one trip_id
yields at most a singleton. -/
theorem filter_trip_id_nodup (us : List TripUpdateRecord)
    (hnd : (us.map (fun u => u.trip_id)).Nodup) (tid : String) :
    us.filter (fun u => u.trip_id == tid) = [] ∨
      ∃ u, us.filter (fun u => u.trip_id == tid) = [u] ∧ u ∈ us ∧ u.trip_id = tid := by
  induction us with
  | nil => exact Or.inl rfl
  | cons u us ih =>
    simp only [List.map_cons, List.nodup_cons, List.mem_map] at hnd
    obtain ⟨hu, hnd'⟩ := hnd
    by_cases h : u.trip_id = tid
    · refine Or.inr ⟨u, ?_, List.mem_cons_self _ _, h⟩
      have hrest : us.filter (fun u => u.trip_id == tid) = [] := by
        refine List.filter_eq_nil_iff.mpr (fun v hv => ?_)
        simp only [beq_iff_eq]
        intro hvt
        exact hu ⟨v, hv, by rw [hvt, h]⟩
      simp [List.filter_cons, h, hrest]
    · rcases ih hnd' with h0 | ⟨w, hw, hwmem, hwt⟩
      · exact Or.inl (by simp [List.filter_cons, h, h0])
      · exact Or.inr ⟨w, by simp [List.filter_cons, h, hw],
          List.mem_cons_of_mem _ hwmem, hwt⟩

/-! ## Claim theorems -/

/-- Claim C4: for every signed delay d taken from the first stop-time
update of a trip update, the derived status is "Delayed" iff d > 300,
"Early" iff d < -60, and "On Time" otherwise; the boundary values d = 300
and d = -60 both map to "On Time", and every record produced by
parse_trip_updates carries the status derived from its own delay. -/
theorem c4_status_classification (d : Int) (feed : FeedMessage) :
    (statusOfDelay d = "Delayed" ↔ 300 < d) ∧
    (statusOfDelay d = "Early" ↔ d < -60) ∧
    (statusOfDelay d = "On Time" ↔ (d ≤ 300 ∧ -60 ≤ d)) ∧
    statusOfDelay 300 = "On Time" ∧ statusOfDelay (-60) = "On Time" ∧
    (parse_trip_updates feed).all (fun u => u.status == statusOfDelay u.delay) = true := by
  refine ⟨?_, ?_, ?_, by decide, by decide, ?_⟩
  · unfold statusOfDelay
    split_ifs with h1 h2 <;> simp <;> omega
  · unfold statusOfDelay
    split_ifs with h1 h2 <;> simp <;> omega
  · unfold statusOfDelay
    split_ifs with h1 h2 <;> simp <;> omega
  · rw [List.all_eq_true]
    intro u hu
    simp only [parse_trip_updates, List.mem_filterMap] at hu
    obtain ⟨⟨ev, etu⟩, -, hsome⟩ := hu
    rcases etu with - | ⟨td, stus⟩
    · simp at hsome
    · rcases stus with - | ⟨s, rest⟩
      · simp at hsome
      · simp only [Option.some.injEq] at hsome
        rw [← hsome]
        simp

/-- Claim C5: region classification checks the latitude buckets in
declared order (Brisbane [-27.75, -27.0], then Gold Coast [-28.2,
-27.78], then Sunshine Coast [-26.9, -26.3]) and returns the first match,
"Other" when none matches; latitude -27.75 maps to Brisbane and -27.78 to
Gold Coast, and longitude is never consulted. -/
theorem c5_region_classification (lat : ℚ) (v : VehicleRecord) (lonNew : ℚ) :
    (categorize_region lat = "Brisbane" ↔ (-27.75 ≤ lat ∧ lat ≤ -27.0)) ∧
    (categorize_region lat = "Gold Coast" ↔
      (¬(-27.75 ≤ lat ∧ lat ≤ -27.0) ∧ (-28.2 ≤ lat ∧ lat ≤ -27.78))) ∧
    (categorize_region lat = "Sunshine Coast" ↔
      (¬(-27.75 ≤ lat ∧ lat ≤ -27.0) ∧ ¬(-28.2 ≤ lat ∧ lat ≤ -27.78) ∧
        (-26.9 ≤ lat ∧ lat ≤ -26.3))) ∧
    (categorize_region lat = "Other" ↔
      (¬(-27.75 ≤ lat ∧ lat ≤ -27.0) ∧ ¬(-28.2 ≤ lat ∧ lat ≤ -27.78) ∧
        ¬(-26.9 ≤ lat ∧ lat ≤ -26.3))) ∧
    categorize_region (-27.75) = "Brisbane" ∧
    categorize_region (-27.78) = "Gold Coast" ∧
    categorize_region { v with lon := lonNew }.lat = categorize_region v.lat := by
  refine ⟨?_, ?_, ?_, ?_, by norm_num [categorize_region], by norm_num [categorize_region], rfl⟩ <;>
    · unfold categorize_region
      split_ifs <;> simp_all

/-- Claim C2: once a refresh has occurred (last_refreshed is set) and the
elapsed time is strictly below the 60-second interval, get_live_bus_data
returns the cached snapshot and the cached timestamp unchanged, for any
fetch results (no fetch is consulted); hence two calls within the
interval return the identical snapshot and timestamp. -/
theorem c2_cache_freshness (c : Cache) (t now now2 : Int)
    (vc tc vc2 tc2 : Option Bytes)
    (hlast : c.last_refreshed = some t)
    (h1 : now - t < REFRESH_INTERVAL_SECONDS)
    (h2 : now2 - t < REFRESH_INTERVAL_SECONDS) :
    get_live_bus_data c now vc tc = .ok (c.data, t, c) ∧
    get_live_bus_data c now2 vc2 tc2 = .ok (c.data, t, c) := by
  have hf : cacheIsFresh c now = true := by simp [cacheIsFresh, hlast, h1]
  have hf2 : cacheIsFresh c now2 = true := by simp [cacheIsFresh, hlast, h2]
  constructor <;> simp [get_live_bus_data, hf, hf2, hlast]

theorem c2_cache_freshness_witness :
    get_live_bus_data ⟨[], some 0, []⟩ 1 none none = .ok ([], 0, ⟨[], some 0, []⟩) ∧
    get_live_bus_data ⟨[], some 0, []⟩ 59 (some .malformed) (some .malformed) =
      .ok ([], 0, ⟨[], some 0, []⟩) :=
  c2_cache_freshness ⟨[], some 0, []⟩ 0 1 59 none none (some .malformed) (some .malformed)
    rfl (by decide) (by decide)

/-- Claim C3: on a refresh attempt (cache not fresh) in which either feed
fetch fails (None or falsy bytes) or the decoded vehicle set is empty,
the cache is returned unchanged (all three fields) and the result is the
cached snapshot with the last successful refresh time, or now when no
refresh has ever succeeded. -/
theorem c3_fail_soft (c : Cache) (now : Int) (vc tc : Option Bytes)
    (hfresh : cacheIsFresh c now = false) :
    (bytesTruthy vc = false ∨ bytesTruthy tc = false →
      get_live_bus_data c now vc tc = .ok (c.data, c.last_refreshed.getD now, c)) ∧
    (∀ mv mt, vc = some (.decodable mv) → tc = some (.decodable mt) →
      parse_vehicle_positions mv = [] →
      get_live_bus_data c now vc tc = .ok (c.data, c.last_refreshed.getD now, c)) := by
  constructor
  · intro h
    rcases h with h | h <;> simp [get_live_bus_data, hfresh, h]
  · intro mv mt hvc htc hempty
    subst hvc; subst htc
    simp [get_live_bus_data, hfresh, bytesTruthy, decodeFeed, hempty]

theorem c3_fail_soft_witness :
    get_live_bus_data ⟨[], none, []⟩ 0 none (some .malformed) = .ok ([], 0, ⟨[], none, []⟩) :=
  (c3_fail_soft ⟨[], none, []⟩ 0 none (some .malformed) rfl).1 (Or.inl rfl)

/-- Claim C8: when no status filter value is supplied, the selected
status set defaults to exactly the statuses present in the snapshot
restricted to the selected region and route, so the subsequent vehicle
restriction by status keeps every row of that restricted dataset. -/
theorem c8_status_default (master : List MergedRecord)
    (selected_region selected_route : String) :
    resolveSelectedStatus master selected_region selected_route [] =
      status_options master selected_region selected_route ∧
    (∀ s, s ∈ resolveSelectedStatus master selected_region selected_route [] ↔
      s ∈ (df_for_status_options master selected_region selected_route).map
        (fun r => r.status)) ∧
    df_for_vehicle_options master selected_region selected_route [] =
      df_for_status_options master selected_region selected_route := by
  refine ⟨rfl, fun s => sortedUnique_mem _ s, ?_⟩
  unfold df_for_vehicle_options
  refine List.filter_eq_self.mpr (fun r hr => ?_)
  have hmem : r.status ∈ status_options master selected_region selected_route :=
    (sortedUnique_mem _ _).mpr (List.mem_map_of_mem _ hr)
  simpa [resolveSelectedStatus, List.contains] using List.elem_eq_true_of_mem hmem

/-- Claim C10: the region, route and vehicle option lists are the literal
"All" followed by the sorted distinct values of the respective
cascadingly restricted dataset, and the status option list is the sorted
distinct statuses of the route-restricted dataset with no "All"
sentinel. -/
theorem c10_option_lists (master : List MergedRecord)
    (selected_region selected_route : String) (selected_status : List String) :
    ((region_options master).head? = some "All" ∧
      (region_options master).tail.Sorted (fun a b => a ≤ b) ∧
      (region_options master).tail.Nodup ∧
      (∀ x, x ∈ (region_options master).tail ↔ x ∈ master.map (fun r => r.region))) ∧
    ((route_options master selected_region).head? = some "All" ∧
      (route_options master selected_region).tail.Sorted (fun a b => a ≤ b) ∧
      (route_options master selected_region).tail.Nodup ∧
      (∀ x, x ∈ (route_options master selected_region).tail ↔
        x ∈ (df_for_route_options master selected_region).map (fun r => r.route_name))) ∧
    ((status_options master selected_region selected_route).Sorted (fun a b => a ≤ b) ∧
      (status_options master selected_region selected_route).Nodup ∧
      (∀ x, x ∈ status_options master selected_region selected_route ↔
        x ∈ (df_for_status_options master selected_region selected_route).map
          (fun r => r.status))) ∧
    ((vehicle_options master selected_region selected_route selected_status).head? =
        some "All" ∧
      (vehicle_options master selected_region selected_route selected_status).tail.Sorted
        (fun a b => a ≤ b) ∧
      (vehicle_options master selected_region selected_route selected_status).tail.Nodup ∧
      (∀ x, x ∈ (vehicle_options master selected_region selected_route
          selected_status).tail ↔
        x ∈ (df_for_vehicle_options master selected_region selected_route
          selected_status).map (fun r => r.vehicle.vehicle_id))) :=
  ⟨⟨rfl, sortedUnique_sorted _, sortedUnique_nodup _, fun x => sortedUnique_mem _ x⟩,
   ⟨rfl, sortedUnique_sorted _, sortedUnique_nodup _, fun x => sortedUnique_mem _ x⟩,
   ⟨sortedUnique_sorted _, sortedUnique_nodup _, fun x => sortedUnique_mem _ x⟩,
   ⟨rfl, sortedUnique_sorted _, sortedUnique_nodup _, fun x => sortedUnique_mem _ x⟩⟩

/-- Claim C9 counterexample: vehicle V1 appears in the previous snapshot
[pSame, pDiff] with coordinates identical to the current ones (pSame),
yet the row for V1 still emits a path segment, because the left join
duplicates the row for every matching previous record and pDiff's
coordinates differ. -/
theorem c9_counterexample :
    pSame.vehicle.vehicle_id = r1.vehicle.vehicle_id ∧
    pSame ∈ [pSame, pDiff] ∧
    pSame.vehicle.lat = r1.vehicle.lat ∧ pSame.vehicle.lon = r1.vehicle.lon ∧
    pathSegments (mergePrevious [r1] [pSame, pDiff]) = [((-28, 153), (-28, 154))] := by
  decide

/-- Claim C9 (amended): for a row of the filtered view whose vehicle_id
matches exactly one record of the previous snapshot, identical
coordinates yield no path segment and differing coordinates yield exactly
one segment from the previous to the current coordinate; with an empty
previous snapshot every row gets NA previous coordinates and no segments
are emitted (when the previous snapshot holds several records with the
same vehicle_id, the join duplicates the row and emits one segment per
differing matched coordinate pair). -/
theorem c9_movement_delta (previous filtered : List MergedRecord) (r p : MergedRecord)
    (hp : previous.filter (fun q => q.vehicle.vehicle_id == r.vehicle.vehicle_id) = [p]) :
    ((p.vehicle.lat = r.vehicle.lat ∧ p.vehicle.lon = r.vehicle.lon) →
      pathSegments (rowsForRecord r previous) = []) ∧
    (¬(p.vehicle.lat = r.vehicle.lat ∧ p.vehicle.lon = r.vehicle.lon) →
      pathSegments (rowsForRecord r previous) =
        [((p.vehicle.lat, p.vehicle.lon), (r.vehicle.lat, r.vehicle.lon))]) ∧
    mergePrevious filtered [] = filtered.map (fun x => ⟨x, none⟩) ∧
    pathSegments (mergePrevious filtered []) = [] ∧
    (previous ≠ [] →
      mergePrevious filtered previous = filtered.flatMap (fun x => rowsForRecord x previous)) := by
  have hrows : rowsForRecord r previous = [⟨r, some (p.vehicle.lat, p.vehicle.lon)⟩] := by
    unfold rowsForRecord
    rw [hp]
    rfl
  refine ⟨?_, ?_, rfl, ?_, fun hne => ?_⟩
  · intro hh
    obtain ⟨hlat, hlon⟩ := hh
    rw [hrows]
    simp [pathSegments, rowSegment, hlat, hlon]
  · intro hne
    rw [hrows]
    by_cases h1 : r.vehicle.lat = p.vehicle.lat <;> by_cases h2 : r.vehicle.lon = p.vehicle.lon
    · exact absurd ⟨h1.symm, h2.symm⟩ hne
    · simp [pathSegments, rowSegment, h1, h2]
    · simp [pathSegments, rowSegment, h1, h2]
    · simp [pathSegments, rowSegment, h1, h2]
  · simp [mergePrevious, pathSegments, List.filterMap_map, rowSegment]
  · simp [mergePrevious, List.isEmpty_iff, hne]

theorem c9_movement_delta_witness :
    pathSegments (rowsForRecord r1 [pDiff]) = [((-28, 153), (-28, 154))] :=
  (c9_movement_delta [pDiff] [] r1 pDiff (by decide)).2.1 (by decide)

/-- Unfolding of leftJoinRows on a cons cell. -/
theorem leftJoinRows_cons (v : VehicleRecord) (vs : List VehicleRecord)
    (updates : List TripUpdateRecord) :
    leftJoinRows (v :: vs) updates =
      (matchedPairs updates v.trip_id).map (fun du =>
        { vehicle := v
          delay := du.1
          status := du.2
          route_name := routeNameOf v.route_id
          region := categorize_region v.lat }) ++ leftJoinRows vs updates := rfl

/-- Claim C1 counterexample: with a non-empty vehicle set and an empty
decoded trip-update set the merge raises KeyError instead of producing
one defaulted row per vehicle, and with two trip updates sharing v1's
trip_id the vehicle appears twice in the merged output, not once. -/
theorem c1_counterexample :
    mergeLiveData [v1] [] = .error .keyError ∧
    (leftJoinRows [v1] [tu1, tu2]).map (fun m => m.vehicle) = [v1, v1] := by
  exact ⟨rfl, rfl⟩

/-- Claim C1 (amended): when the decoded trip-update set is non-empty and
its trip_ids are pairwise distinct, the merge succeeds and is a left
join: the vehicle column of the merged output is exactly the decoded
vehicle list (each VehicleRecord appears exactly once, in order), and any
merged row whose trip_id matches no trip update carries the defaults
delay = 0 and status "On Time". -/
theorem c1_left_join (vehicles : List VehicleRecord) (updates : List TripUpdateRecord)
    (hne : updates ≠ [])
    (hnd : (updates.map (fun u => u.trip_id)).Nodup) :
    mergeLiveData vehicles updates = .ok (leftJoinRows vehicles updates) ∧
    (leftJoinRows vehicles updates).map (fun m => m.vehicle) = vehicles ∧
    ∀ m ∈ leftJoinRows vehicles updates,
      (∀ u ∈ updates, u.trip_id ≠ m.vehicle.trip_id) →
        m.delay = 0 ∧ m.status = "On Time" := by
  refine ⟨by simp [mergeLiveData, hne], ?_, ?_⟩
  · induction vehicles with
    | nil => rfl
    | cons v vs ih =>
      rw [leftJoinRows_cons, List.map_append, List.map_map, ih]
      rcases filter_trip_id_nodup updates hnd v.trip_id with h0 | ⟨u, hu, -, -⟩
      · have hmp : matchedPairs updates v.trip_id = [(0, "On Time")] := by
          unfold matchedPairs; rw [h0]
        rw [hmp]
        rfl
      · have hmp : matchedPairs updates v.trip_id = [(u.delay, u.status)] := by
          unfold matchedPairs; rw [hu]; rfl
        rw [hmp]
        rfl
  · intro m hm hno
    rw [leftJoinRows, List.mem_flatMap] at hm
    obtain ⟨v, hv, hmv⟩ := hm
    rw [List.mem_map] at hmv
    obtain ⟨du, hdu, hrec⟩ := hmv
    rcases hfil : updates.filter (fun u => u.trip_id == v.trip_id) with - | ⟨u, rest⟩
    · have hmp : matchedPairs updates v.trip_id = [(0, "On Time")] := by
        unfold matchedPairs; rw [hfil]
      rw [hmp] at hdu
      simp only [List.mem_singleton] at hdu
      rw [← hrec, hdu]
      exact ⟨rfl, rfl⟩
    · have humem : u ∈ updates ∧ (u.trip_id == v.trip_id) = true := by
        have : u ∈ updates.filter (fun u => u.trip_id == v.trip_id) := by
          rw [hfil]; exact List.mem_cons_self _ _
        exact List.mem_filter.mp this
      have hvm : m.vehicle = v := by rw [← hrec]
      exact absurd (by rw [hvm]; exact beq_iff_eq.mp humem.2) (hno u humem.1)

theorem c1_left_join_witness :
    mergeLiveData [v1] [tuOther] = .ok (leftJoinRows [v1] [tuOther]) ∧
    (leftJoinRows [v1] [tuOther]).map (fun m => m.vehicle) = [v1] := by
  have h := c1_left_join [v1] [tuOther] (by decide) (by decide)
  exact ⟨h.1, h.2.1⟩

/-- Claim C7 counterexample: both feeds are fetched and decode, the
vehicle set is non-empty, but the decoded trip-update set is empty, so
the refresh raises KeyError instead of updating the cache and returning
the merged snapshot. -/
theorem c7_counterexample :
    get_live_bus_data ⟨[], none, []⟩ 0 (some (.decodable sampleFeedV))
      (some (.decodable ⟨[]⟩)) = .error .keyError := rfl

/-- Claim C7 (amended): on a refresh in which both feeds decode, the
vehicle set is non-empty and the trip-update set is non-empty, the
previous snapshot becomes the old current snapshot, the current snapshot
becomes the merged data, the last-refreshed timestamp becomes now, and
the merged snapshot with timestamp now is returned. -/
theorem c7_refresh_updates_cache (c : Cache) (now : Int) (mv mt : FeedMessage)
    (hfresh : cacheIsFresh c now = false)
    (hv : parse_vehicle_positions mv ≠ [])
    (ht : parse_trip_updates mt ≠ []) :
    get_live_bus_data c now (some (.decodable mv)) (some (.decodable mt)) =
      .ok (leftJoinRows (parse_vehicle_positions mv) (parse_trip_updates mt), now,
        { data := leftJoinRows (parse_vehicle_positions mv) (parse_trip_updates mt)
          last_refreshed := some now
          previous_data := c.data }) := by
  simp [get_live_bus_data, hfresh, bytesTruthy, decodeFeed, mergeLiveData,
    List.isEmpty_iff, hv, ht]

theorem c7_refresh_witness :
    get_live_bus_data ⟨[], none, []⟩ 5 (some (.decodable sampleFeedV))
      (some (.decodable sampleFeedT)) =
      .ok (leftJoinRows (parse_vehicle_positions sampleFeedV)
             (parse_trip_updates sampleFeedT), 5,
        ⟨leftJoinRows (parse_vehicle_positions sampleFeedV)
           (parse_trip_updates sampleFeedT), some 5, []⟩) :=
  c7_refresh_updates_cache ⟨[], none, []⟩ 5 sampleFeedV sampleFeedT rfl
    (by decide) (by decide)

/-- Claim C6 counterexample: a fetched non-empty vehicle payload that
fails to decode makes get_live_bus_data raise DecodeError instead of
returning the cached snapshot. -/
theorem c6_counterexample :
    get_live_bus_data ⟨[], none, []⟩ 0 (some .malformed) (some (.decodable ⟨[]⟩)) =
      .error .decodeError := rfl

/-- Claim C6 (amended): get_live_bus_data raises exactly when the cache
is stale, both fetched payloads are truthy, and either payload is
malformed (protobuf DecodeError propagates) or both decode with a
non-empty vehicle set and an empty trip-update set (pandas KeyError); in
every other case — fetch failure, falsy payload, or empty decoded vehicle
set — it returns the cached snapshot instead of raising. -/
theorem c6_error_characterization (c : Cache) (now : Int) (vc tc : Option Bytes) :
    isErr (get_live_bus_data c now vc tc) = true ↔
      (cacheIsFresh c now = false ∧ bytesTruthy vc = true ∧ bytesTruthy tc = true ∧
        (vc = some .malformed ∨ tc = some .malformed ∨
          (∃ mv mt, vc = some (.decodable mv) ∧ tc = some (.decodable mt) ∧
            parse_vehicle_positions mv ≠ [] ∧ parse_trip_updates mt = []))) := by
  cases hf : cacheIsFresh c now with
  | true => simp [get_live_bus_data, hf, isErr]
  | false =>
    rcases vc with - | vb
    · simp [get_live_bus_data, hf, bytesTruthy, isErr]
    rcases tc with - | tb
    · cases vb <;> simp [get_live_bus_data, hf, bytesTruthy, isErr]
    cases vb with
    | empty => simp [get_live_bus_data, hf, bytesTruthy, isErr]
    | malformed =>
      cases tb <;> simp [get_live_bus_data, hf, bytesTruthy, decodeFeed, isErr]
    | decodable mv =>
      cases tb with
      | empty => simp [get_live_bus_data, hf, bytesTruthy, isErr]
      | malformed => simp [get_live_bus_data, hf, bytesTruthy, decodeFeed, isErr]
      | decodable mt =>
        by_cases hv : parse_vehicle_positions mv = [] <;>
          by_cases ht : parse_trip_updates mt = [] <;>
            simp [get_live_bus_data, hf, bytesTruthy, decodeFeed, isErr,
              mergeLiveData, List.isEmpty_iff, hv, ht]

end FlaskApp
